import Mathlib

/-!
Verification development for the monks-n-monsters river-crossing engine.

The definitions below are a shallow embedding of the JavaScript sources:
`src/js/enums.js` (the enumerations), the `MountObj` base class (shared
passenger-holder behaviour of docks and the boat), and the model layer of
`src/js/main.js` (`Dock`, `Boat`, `Avatar`, `Game` and its methods).

Representation choices:
* Avatars are identified by natural-number ids (the source uses the strings
  `monster-i` / `human-i`; ids are unique either way, and `indexOf` /
  `includes` on the unique objects coincide with id equality).  Passenger
  lists of docks and the boat hold avatar ids; the per-avatar mutable fields
  (`location`, `mounted`) live in the game's avatar roster, mirroring the
  shared mutable `Avatar` objects of the source.
* Methods that mutate `this` become functions `Game -> Game` (paired with a
  result tag describing the observable outcome: which early-return / message
  path was taken, or that a JavaScript `TypeError` would be thrown at that
  point, carrying the state at the moment of the throw).
* The deferred voyage-completion callback of `handleBoatClick` (the closure
  handed to `view.playVoyageAnimation`, which fires after the animation) is
  modelled by the field `pendingVoyage`: launching stores the captured
  `voyageTo`, and `completeVoyage` runs the callback body.
-/

/-- Location enumeration (`enums.js`). -/
inductive Location where
  | origin
  | destination
  | river
deriving DecidableEq, Repr

/-- Mount status for avatars (`enums.js`). -/
inductive MountStatus where
  | onDock
  | onBoat
deriving DecidableEq, Repr

/-- Avatar kind enumeration (`enums.js`). -/
inductive AvatarType where
  | human
  | monster
deriving DecidableEq, Repr

/-- Game status enumeration (`enums.js`). -/
inductive GameStatus where
  | ongoing
  | won
  | lost
deriving DecidableEq, Repr

/-- Boat status enumeration (`enums.js`). -/
inductive BoatStatus where
  | docked
  | sailing
deriving DecidableEq, Repr

/-- Base holder of avatars (`MountObj`): capacity bounds and passenger list. -/
structure MountObj where
  minCapacity : Nat
  maxCapacity : Nat
  passengers : List Nat
deriving DecidableEq, Repr

/-- Source method `MountObj.getPassengerCount`. -/
def MountObj.getPassengerCount (m : MountObj) : Nat :=
  m.passengers.length

/-- Source method `MountObj.isFull`: `length >= maxCapacity`. -/
def MountObj.isFull (m : MountObj) : Bool :=
  decide (m.maxCapacity ≤ m.passengers.length)

/-- Source method `MountObj.isEmpty`: no passengers. -/
def MountObj.isEmpty (m : MountObj) : Bool :=
  m.passengers.isEmpty

/-- Source method `MountObj.hasPassenger`: `includes` on the passenger list. -/
def MountObj.hasPassenger (m : MountObj) (id : Nat) : Bool :=
  decide (id ∈ m.passengers)

/-- Source method `MountObj.addPassenger`: push unless full.  Every call site of the source
ignores the returned boolean, so only the updated state is modelled. -/
def MountObj.addPassenger (m : MountObj) (id : Nat) : MountObj :=
  if m.isFull then m else { m with passengers := m.passengers ++ [id] }

/-- Source method `MountObj.removePassenger`: `indexOf` + `splice`, i.e. erase the first
occurrence; state is unchanged when the id is absent.  The returned boolean
is ignored by every call site and is not modelled. -/
def MountObj.removePassenger (m : MountObj) (id : Nat) : MountObj :=
  { m with passengers := m.passengers.erase id }

/-- A dock (`Dock` class): a mount bound to a fixed side. -/
structure Dock where
  mount : MountObj
  location : Location
deriving DecidableEq, Repr

/-- The boat (`Boat` class): a mount with mutable location and status. -/
structure Boat where
  mount : MountObj
  location : Location
  status : BoatStatus
deriving DecidableEq, Repr

/-- Source method `Boat.getDestinationLocation`: the side opposite the current location,
with the source's fallback of `ORIGIN` for the river case. -/
def Boat.getDestinationLocation (b : Boat) : Location :=
  match b.location with
  | Location.origin => Location.destination
  | Location.destination => Location.origin
  | Location.river => Location.origin

/-- Source method `Boat.canSail`: at least `minCapacity` passengers aboard. -/
def Boat.canSail (b : Boat) : Bool :=
  decide (b.mount.minCapacity ≤ b.mount.passengers.length)

/-- An avatar (`Avatar` class): immutable id and kind, mutable zone and
mount state. -/
structure Avatar where
  id : Nat
  kind : AvatarType
  location : Location
  mounted : MountStatus
deriving DecidableEq, Repr

/-- The game aggregate (`Game` class).  `pendingVoyage` models the deferred
voyage-completion callback captured by `handleBoatClick` (holding its
`voyageTo`); presentation-only fields (uuid, view) are out of scope. -/
structure Game where
  numMonsters : Nat
  numHumans : Nat
  totalAvatars : Nat
  boatCapacity : Nat
  status : GameStatus
  tripCount : Nat
  avatars : List Avatar
  dockOrigin : Dock
  dockDestination : Dock
  boat : Boat
  pendingVoyage : Option Location
deriving DecidableEq, Repr

/-- Source method `Game.getAvatarById`: first avatar with the given id. -/
def Game.getAvatarById (g : Game) (id : Nat) : Option Avatar :=
  g.avatars.find? (fun a => a.id = id)

/-- Source method `Game.getDockByLocation`: the dock at a side, `none` (JavaScript `null`)
for the river. -/
def Game.getDockByLocation (g : Game) (loc : Location) : Option Dock :=
  match loc with
  | Location.origin => some g.dockOrigin
  | Location.destination => some g.dockDestination
  | Location.river => none

/-- Write back the dock stored at a side (the source mutates the dock object
returned by `getDockByLocation` in place). -/
def Game.setDockAt (g : Game) (loc : Location) (d : Dock) : Game :=
  match loc with
  | Location.origin => { g with dockOrigin := d }
  | Location.destination => { g with dockDestination := d }
  | Location.river => g

/-- Replace the boat (the source mutates `this.boat` in place). -/
def Game.setBoat (g : Game) (b : Boat) : Game :=
  { g with boat := b }

/-- Source mutation `avatar.setMounted`: the clicked avatar object is shared with the roster,
so updating it updates the roster entry with that id. -/
def Game.setMountedById (g : Game) (id : Nat) (m : MountStatus) : Game :=
  { g with avatars := g.avatars.map (fun a => if a.id = id then { a with mounted := m } else a) }

/-- Source loop `boat.getPassengers().forEach(avatar => avatar.setLocation(loc))`:
update the zone of every avatar currently aboard the boat. -/
def Game.setLocationOfBoatPassengers (g : Game) (loc : Location) : Game :=
  { g with avatars := g.avatars.map (fun a => if g.boat.mount.hasPassenger a.id then { a with location := loc } else a) }

/-- Observable outcome of `Game.handleAvatarClick`: which return path of the
source method was taken.  `throwTypeError` marks the two points where the
source dereferences the `null` returned by `getDockByLocation(RIVER)`; the
paired state is the state at the moment of the throw. -/
inductive ClickResult where
  | noopTerminal
  | noopUnknownAvatar
  | msgOtherSide
  | msgFullCapacity
  | boarded
  | noopNotAboard
  | disembarked
  | throwTypeError
deriving DecidableEq, Repr

/-- Source method `Game.handleAvatarClick`: board the clicked avatar onto the boat, or
disembark it onto the dock at the boat's location. -/
def Game.handleAvatarClick (g : Game) (id : Nat) : Game × ClickResult :=
  if g.status ≠ GameStatus.ongoing then (g, ClickResult.noopTerminal)
  else
    match g.getAvatarById id with
    | none => (g, ClickResult.noopUnknownAvatar)
    | some avatar =>
      match avatar.mounted with
      | MountStatus.onDock =>
        match g.getDockByLocation g.boat.location with
        | none => (g, ClickResult.throwTypeError)
        | some currentDock =>
          if currentDock.mount.hasPassenger id = false then (g, ClickResult.msgOtherSide)
          else if g.boat.mount.isFull then (g, ClickResult.msgFullCapacity)
          else
            let dock' : Dock := { currentDock with mount := currentDock.mount.removePassenger id }
            let boat' : Boat := { g.boat with mount := g.boat.mount.addPassenger id }
            (((g.setDockAt g.boat.location dock').setBoat boat').setMountedById id MountStatus.onBoat,
              ClickResult.boarded)
      | MountStatus.onBoat =>
        if g.boat.mount.hasPassenger id = false then (g, ClickResult.noopNotAboard)
        else
          -- the source removes the passenger from the boat first and only then
          -- fetches the dock at `this.boat.location`; removing a passenger
          -- leaves the boat's location unchanged
          match (g.setBoat { g.boat with mount := g.boat.mount.removePassenger id }).getDockByLocation
              g.boat.location with
          | none =>
            (g.setBoat { g.boat with mount := g.boat.mount.removePassenger id },
              ClickResult.throwTypeError)
          | some currentDock =>
            let dock' : Dock := { currentDock with mount := currentDock.mount.addPassenger id }
            (((g.setBoat { g.boat with mount := g.boat.mount.removePassenger id }).setDockAt
                g.boat.location dock').setMountedById id MountStatus.onDock,
              ClickResult.disembarked)

/-- Observable outcome of `Game.handleBoatClick`. -/
inductive LaunchResult where
  | noopTerminal
  | msgNeedCrew
  | launched
deriving DecidableEq, Repr

/-- Source method `Game.handleBoatClick`: initiate a voyage.  The closure handed to
`view.playVoyageAnimation` is recorded as `pendingVoyage := some voyageTo`. -/
def Game.handleBoatClick (g : Game) : Game × LaunchResult :=
  if g.status ≠ GameStatus.ongoing then (g, LaunchResult.noopTerminal)
  else if g.boat.canSail = false then (g, LaunchResult.msgNeedCrew)
  else
    let voyageTo := g.boat.getDestinationLocation
    let g1 := g.setBoat { g.boat with status := BoatStatus.sailing, location := Location.river }
    let g2 := g1.setLocationOfBoatPassengers Location.river
    ({ g2 with tripCount := g2.tripCount + 1, pendingVoyage := some voyageTo },
      LaunchResult.launched)

/-- Does an avatar id refer to an avatar of the given kind. -/
def Game.kindIs (g : Game) (id : Nat) (t : AvatarType) : Bool :=
  match g.getAvatarById id with
  | some a => decide (a.kind = t)
  | none => false

/-- The per-kind counter loops of `Game.isBalanced`: how many avatars of a
kind appear in a passenger list. -/
def Game.countOfKind (g : Game) (ids : List Nat) (t : AvatarType) : Nat :=
  (ids.filter (fun id => g.kindIs id t)).length

/-- The count used by `Game.isBalanced`: avatars of a kind on the dock,
plus those on the boat when the boat is docked at that same side. -/
def Game.sideCount (g : Game) (d : Dock) (t : AvatarType) : Nat :=
  g.countOfKind d.mount.passengers t +
    (if d.location = g.boat.location then g.countOfKind g.boat.mount.passengers t else 0)

/-- Source method `Game.isBalanced`: balanced when the side has no humans, or at least as
many humans as monsters. -/
def Game.isBalanced (g : Game) (d : Dock) : Bool :=
  let monsters := g.sideCount d AvatarType.monster
  let humans := g.sideCount d AvatarType.human
  decide (humans = 0) || decide (monsters ≤ humans)

/-- Source method `Game.handleFeast`: the predator (monster) and prey (human) id lists
handed to the feast animation, listing the dock's passengers and then the
boat's when the boat is docked at that same side. -/
def Game.handleFeast (g : Game) (d : Dock) : List Nat × List Nat :=
  let pool := if d.location = g.boat.location then d.mount.passengers ++ g.boat.mount.passengers else d.mount.passengers
  (pool.filter (fun id => g.kindIs id AvatarType.monster),
    pool.filter (fun id => g.kindIs id AvatarType.human))

/-- The win condition tested first by `Game.handleGameStatus` (the stricter
re-check after the `return true` is dead code and is not modelled, per the
spec's design notes). -/
def Game.winCond (g : Game) : Bool :=
  g.dockOrigin.mount.isEmpty &&
    decide (g.boat.location = Location.destination) &&
    decide (g.totalAvatars ≤ g.dockDestination.mount.getPassengerCount + g.boat.mount.getPassengerCount)

/-- Observable outcome of `Game.handleGameStatus`: win declared, or loss
declared with the tagged dock's side and the feast lists, or no transition. -/
inductive EvalOutcome where
  | alreadyTerminal
  | declaredWon
  | declaredLost (side : Location) (predators : List Nat) (prey : List Nat)
  | stillOngoing
deriving DecidableEq, Repr

/-- Source method `Game.handleGameStatus`: evaluate win, then origin balance, then
destination balance. -/
def Game.handleGameStatus (g : Game) : Game × EvalOutcome :=
  if g.status ≠ GameStatus.ongoing then (g, EvalOutcome.alreadyTerminal)
  else if g.winCond then ({ g with status := GameStatus.won }, EvalOutcome.declaredWon)
  else if g.isBalanced g.dockOrigin = false then
    let f := g.handleFeast g.dockOrigin
    ({ g with status := GameStatus.lost }, EvalOutcome.declaredLost g.dockOrigin.location f.1 f.2)
  else if g.isBalanced g.dockDestination = false then
    let f := g.handleFeast g.dockDestination
    ({ g with status := GameStatus.lost }, EvalOutcome.declaredLost g.dockDestination.location f.1 f.2)
  else (g, EvalOutcome.stillOngoing)

/-- The voyage-completion callback body of `Game.handleBoatClick` (dock the
boat at the captured `voyageTo`, relocate its passengers, evaluate the
outcome), as the second phase of the two-phase launch.  A no-op when no
voyage is pending. -/
def Game.completeVoyage (g : Game) : Game × Option EvalOutcome :=
  match g.pendingVoyage with
  | none => (g, none)
  | some voyageTo =>
    let g1 := g.setBoat { g.boat with status := BoatStatus.docked, location := voyageTo }
    let g2 := g1.setLocationOfBoatPassengers voyageTo
    let g3 := { g2 with pendingVoyage := none }
    let r := g3.handleGameStatus
    (r.1, some r.2)

/-- Source defaults `avatar.setLocation(ORIGIN)`/`setMounted(ON_DOCK)` plus the
spawn loops of the source's `Game.initialize`: each created avatar is pushed onto the
roster and onto the origin dock. -/
def Game.spawnAvatar (g : Game) (a : Avatar) : Game :=
  { g with avatars := g.avatars ++ [a],
           dockOrigin := { g.dockOrigin with mount := g.dockOrigin.mount.addPassenger a.id } }

/-- The avatars created by the source's `Game.initialize`: monsters `monster-0 ...`
(ids `0 ... numMonsters-1`), then humans `human-0 ...`
(ids `numMonsters ...`), all starting on the origin dock. -/
def initAvatars (numMonsters numHumans : Nat) : List Avatar :=
  (List.range numMonsters).map
      (fun i => { id := i, kind := AvatarType.monster, location := Location.origin, mounted := MountStatus.onDock }) ++
    (List.range numHumans).map
      (fun i => { id := numMonsters + i, kind := AvatarType.human, location := Location.origin, mounted := MountStatus.onDock })

/-- The `Game` constructor fields plus the dock and boat construction of
the source's `Game.initialize`: fresh status and trip counter, docks with capacity
`totalAvatars`, boat with minimum 1 and maximum `boatCapacity`, before any
avatar is spawned. -/
def Game.initBase (numMonsters numHumans boatCapacity : Nat) : Game :=
  { numMonsters := numMonsters,
    numHumans := numHumans,
    totalAvatars := numMonsters + numHumans,
    boatCapacity := boatCapacity,
    status := GameStatus.ongoing,
    tripCount := 0,
    avatars := [],
    dockOrigin := { mount := { minCapacity := 0, maxCapacity := numMonsters + numHumans, passengers := [] },
                    location := Location.origin },
    dockDestination := { mount := { minCapacity := 0, maxCapacity := numMonsters + numHumans, passengers := [] },
                         location := Location.destination },
    boat := { mount := { minCapacity := 1, maxCapacity := boatCapacity, passengers := [] },
              location := Location.origin, status := BoatStatus.docked },
    pendingVoyage := none }

/-- Source `Game` constructor plus its `initialize` method: the fresh base state and the
avatar spawn loops. -/
def Game.initGame (numMonsters numHumans boatCapacity : Nat) : Game :=
  (initAvatars numMonsters numHumans).foldl Game.spawnAvatar
    (Game.initBase numMonsters numHumans boatCapacity)

/-- The avatar click handler installed by `ViewController.createAvatarElement`:
the click reaches `Game.handleAvatarClick` only while the view's
`isAnimating` flag is unset. -/
def ViewController.avatarElementClick (isAnimating : Bool) (g : Game) (id : Nat) : Game :=
  if isAnimating = false then (g.handleAvatarClick id).1 else g

/-- The boat-button click handler installed by `ViewController.bindEvents`:
the click reaches `Game.handleBoatClick` only while the view's
`isAnimating` flag is unset. -/
def ViewController.boatActionClick (isAnimating : Bool) (g : Game) : Game :=
  if isAnimating = false then (g.handleBoatClick).1 else g

/-- One engine command of the shipped system.  Avatar and boat clicks reach
the engine only while no voyage is in flight: the handlers installed by the
view run the engine call only when `isAnimating` is unset, and the view sets
`isAnimating` for the whole duration of the voyage animation, whose
completion callback is `completeVoyage`. -/
inductive Game.Step : Game → Game → Prop where
  | avatarClick (g : Game) (id : Nat) (hp : g.pendingVoyage = none) :
      Game.Step g (g.handleAvatarClick id).1
  | boatClick (g : Game) (hp : g.pendingVoyage = none) :
      Game.Step g (g.handleBoatClick).1
  | voyageComplete (g : Game) :
      Game.Step g (g.completeVoyage).1

/-- States reachable by engine commands from a freshly initialized game. -/
def Game.Reachable (numMonsters numHumans boatCapacity : Nat) (g : Game) : Prop :=
  Relation.ReflTransGen Game.Step (Game.initGame numMonsters numHumans boatCapacity) g

/-- The structural invariant maintained by the engine: avatar ids are
distinct, every avatar sits in exactly one of the three passenger lists,
the container sizes sum to the configured total, the boat respects its
maximum capacity, the boat is docked whenever no voyage is pending, a
pending voyage always targets a shore, and both docks keep their initial
capacity of `totalAvatars`. -/
structure Game.Inv (g : Game) : Prop where
  idsNodup : (g.avatars.map Avatar.id).Nodup
  oneContainer : ∀ a ∈ g.avatars,
    g.dockOrigin.mount.passengers.count a.id + g.boat.mount.passengers.count a.id +
      g.dockDestination.mount.passengers.count a.id = 1
  totalLen : g.dockOrigin.mount.passengers.length + g.boat.mount.passengers.length +
      g.dockDestination.mount.passengers.length = g.totalAvatars
  boatMax : g.boat.mount.passengers.length ≤ g.boat.mount.maxCapacity
  dockedIdle : g.pendingVoyage = none → g.boat.location ≠ Location.river
  targetSide : ∀ v, g.pendingVoyage = some v → v ≠ Location.river
  dockCapO : g.dockOrigin.mount.maxCapacity = g.totalAvatars
  dockCapD : g.dockDestination.mount.maxCapacity = g.totalAvatars

/-- Play of a 3-monster, 3-human, capacity-2 game: monster 0 boards. -/
def gBoarded332 : Game :=
  ((Game.initGame 3 3 2).handleAvatarClick 0).1

/-- A reachable in-flight state (3 monsters, 3 humans, capacity 2): monster 0
boards and the boat launches; the voyage-completion callback has not fired. -/
def gFlight332 : Game :=
  (gBoarded332.handleBoatClick).1

/-- Play of a 1-monster, 1-human, capacity-2 game: monster 0 boards. -/
def gW112a : Game :=
  ((Game.initGame 1 1 2).handleAvatarClick 0).1

/-- Play of a 1-monster, 1-human, capacity-2 game: human 1 boards as well. -/
def gW112b : Game :=
  (gW112a.handleAvatarClick 1).1

/-- Play of a 1-monster, 1-human, capacity-2 game: the boat launches with
both avatars aboard. -/
def gW112c : Game :=
  (gW112b.handleBoatClick).1

/-- The state at the moment the outcome of that last voyage is evaluated:
the boat docked at the destination with both passengers relocated (the body
of the voyage-completion callback before `handleGameStatus` runs). -/
def gArrive112 : Game :=
  let b : Boat := { gW112c.boat with status := BoatStatus.docked, location := Location.destination }
  let g2 : Game := (gW112c.setBoat b).setLocationOfBoatPassengers Location.destination
  { g2 with pendingVoyage := none }

/-- A reachable won state (1 monster, 1 human, capacity 2): both avatars
board, the boat launches, and the voyage completes, winning the game with
both passengers still aboard. -/
def gWon112 : Game :=
  (gW112c.completeVoyage).1

/-- Play of a 5-monster, 3-human, capacity-3 game: human 5 boards. -/
def g533a : Game :=
  ((Game.initGame 5 3 3).handleAvatarClick 5).1

/-- Play of a 5-monster, 3-human, capacity-3 game: monster 0 boards. -/
def g533b : Game :=
  (g533a.handleAvatarClick 0).1

/-- Play of a 5-monster, 3-human, capacity-3 game: monster 1 boards. -/
def g533c : Game :=
  (g533b.handleAvatarClick 1).1

/-- A reachable in-flight state (5 monsters, 3 humans, capacity 3): human 5
and monsters 0 and 1 board and the boat launches.  When this voyage
completes, the origin side holds monsters 2,3,4 against humans 6,7 and the
destination side holds monsters 0,1 against human 5, so both sides are
unbalanced at the moment of outcome evaluation. -/
def gFlight533 : Game :=
  (g533c.handleBoatClick).1

/-- A hand-built ongoing state whose two sides are both unbalanced (two
monsters against one human on each dock, boat empty): used to instantiate
theorems about the outcome evaluation. -/
def gBothSidesOff : Game :=
  { numMonsters := 4,
    numHumans := 2,
    totalAvatars := 6,
    boatCapacity := 2,
    status := GameStatus.ongoing,
    tripCount := 0,
    avatars :=
      [ { id := 0, kind := AvatarType.monster, location := Location.origin, mounted := MountStatus.onDock },
        { id := 1, kind := AvatarType.monster, location := Location.origin, mounted := MountStatus.onDock },
        { id := 2, kind := AvatarType.human, location := Location.origin, mounted := MountStatus.onDock },
        { id := 3, kind := AvatarType.monster, location := Location.destination, mounted := MountStatus.onDock },
        { id := 4, kind := AvatarType.monster, location := Location.destination, mounted := MountStatus.onDock },
        { id := 5, kind := AvatarType.human, location := Location.destination, mounted := MountStatus.onDock } ],
    dockOrigin := { mount := { minCapacity := 0, maxCapacity := 6, passengers := [0, 1, 2] },
                    location := Location.origin },
    dockDestination := { mount := { minCapacity := 0, maxCapacity := 6, passengers := [3, 4, 5] },
                         location := Location.destination },
    boat := { mount := { minCapacity := 1, maxCapacity := 2, passengers := [] },
              location := Location.origin, status := BoatStatus.docked },
    pendingVoyage := none }

theorem MountObj.hasPassenger_iff (m : MountObj) (id : Nat) :
    m.hasPassenger id = true ↔ id ∈ m.passengers := by
  simp [MountObj.hasPassenger]

theorem MountObj.isFull_false_iff (m : MountObj) :
    m.isFull = false ↔ m.passengers.length < m.maxCapacity := by
  unfold MountObj.isFull
  simp [Nat.not_le]

theorem MountObj.addPassenger_of_not_full (m : MountObj) (id : Nat)
    (h : m.passengers.length < m.maxCapacity) :
    m.addPassenger id = { m with passengers := m.passengers ++ [id] } := by
  unfold MountObj.addPassenger
  rw [if_neg]
  simp [MountObj.isFull, Nat.not_le]
  exact h

theorem map_id_of_preserve (l : List Avatar) (f : Avatar → Avatar)
    (h : ∀ a, (f a).id = a.id) :
    (l.map f).map Avatar.id = l.map Avatar.id := by
  induction l with
  | nil => rfl
  | cons a t ih => simp [h, ih]

theorem setMountedById_avatars_ids (g : Game) (id : Nat) (m : MountStatus) :
    ((g.setMountedById id m).avatars).map Avatar.id = g.avatars.map Avatar.id := by
  unfold Game.setMountedById
  apply map_id_of_preserve
  intro a
  by_cases h : a.id = id <;> simp [h]

theorem setLocationOfBoatPassengers_avatars_ids (g : Game) (loc : Location) :
    ((g.setLocationOfBoatPassengers loc).avatars).map Avatar.id = g.avatars.map Avatar.id := by
  unfold Game.setLocationOfBoatPassengers
  apply map_id_of_preserve
  intro a
  by_cases h : g.boat.mount.hasPassenger a.id <;> simp [h]

theorem getAvatarById_mem (g : Game) (id : Nat) (a : Avatar)
    (h : g.getAvatarById id = some a) : a ∈ g.avatars ∧ a.id = id := by
  unfold Game.getAvatarById at h
  refine ⟨List.mem_of_find?_eq_some h, ?_⟩
  have := List.find?_some h
  simpa using this

theorem getDockByLocation_none_iff (g : Game) (loc : Location) :
    g.getDockByLocation loc = none ↔ loc = Location.river := by
  cases loc <;> simp [Game.getDockByLocation]

/-- Transfer the structural invariant along equalities of the observable
state components. -/
theorem Game.Inv.transfer (g g' : Game) (hI : g.Inv)
    (h1 : g'.avatars.map Avatar.id = g.avatars.map Avatar.id)
    (h2 : ∀ x : Nat,
      g'.dockOrigin.mount.passengers.count x + g'.boat.mount.passengers.count x +
        g'.dockDestination.mount.passengers.count x
      = g.dockOrigin.mount.passengers.count x + g.boat.mount.passengers.count x +
        g.dockDestination.mount.passengers.count x)
    (h3 : g'.dockOrigin.mount.passengers.length + g'.boat.mount.passengers.length +
        g'.dockDestination.mount.passengers.length
      = g.dockOrigin.mount.passengers.length + g.boat.mount.passengers.length +
        g.dockDestination.mount.passengers.length)
    (h4 : g'.boat.mount.passengers.length ≤ g'.boat.mount.maxCapacity)
    (h5 : g'.pendingVoyage = none → g'.boat.location ≠ Location.river)
    (h6 : ∀ v, g'.pendingVoyage = some v → v ≠ Location.river)
    (h7 : g'.totalAvatars = g.totalAvatars)
    (h8 : g'.dockOrigin.mount.maxCapacity = g.dockOrigin.mount.maxCapacity)
    (h9 : g'.dockDestination.mount.maxCapacity = g.dockDestination.mount.maxCapacity) :
    g'.Inv := by
  refine ⟨?_, ?_, ?_, h4, h5, h6, ?_, ?_⟩
  · rw [h1]; exact hI.idsNodup
  · intro a ha
    have hid : a.id ∈ g.avatars.map Avatar.id := by
      rw [← h1]; exact List.mem_map_of_mem Avatar.id ha
    obtain ⟨b, hb, hba⟩ := List.mem_map.1 hid
    rw [h2, ← hba]
    exact hI.oneContainer b hb
  · rw [h3, h7]; exact hI.totalLen
  · rw [h8, h7]; exact hI.dockCapO
  · rw [h9, h7]; exact hI.dockCapD

theorem inv_board (g : Game) (id : Nat) (d : Dock) (hI : g.Inv) (hp : g.pendingVoyage = none)
    (hd : g.getDockByLocation g.boat.location = some d)
    (hmem : id ∈ d.mount.passengers)
    (hfull : g.boat.mount.isFull = false) :
    Game.Inv (((g.setDockAt g.boat.location { d with mount := d.mount.removePassenger id }).setBoat
        { g.boat with mount := g.boat.mount.addPassenger id }).setMountedById id MountStatus.onBoat) := by
  have hlocne : g.boat.location ≠ Location.river := hI.dockedIdle hp
  have hlen : g.boat.mount.passengers.length < g.boat.mount.maxCapacity :=
    (MountObj.isFull_false_iff _).1 hfull
  have hadd : g.boat.mount.addPassenger id =
      { g.boat.mount with passengers := g.boat.mount.passengers ++ [id] } :=
    MountObj.addPassenger_of_not_full _ _ hlen
  cases hloc : g.boat.location with
  | river => exact absurd hloc hlocne
  | origin =>
    rw [hloc] at hd
    have hdo : d = g.dockOrigin := by
      simpa [Game.getDockByLocation] using hd.symm
    subst hdo
    refine Game.Inv.transfer g _ hI ?_ ?_ ?_ ?_ ?_ ?_ ?_ ?_ ?_
    · exact setMountedById_avatars_ids _ id MountStatus.onBoat
    · intro x
      simp only [Game.setDockAt, Game.setBoat, Game.setMountedById, MountObj.removePassenger, hadd]
      by_cases hx : x = id
      · subst hx
        have hpos : 0 < g.dockOrigin.mount.passengers.count x := List.count_pos_iff.2 hmem
        simp [List.count_erase_self, List.count_append]
        omega
      · simp [List.count_erase_of_ne (Ne.symm hx), List.count_append,
          List.count_singleton', hx]
    · simp only [Game.setDockAt, Game.setBoat, Game.setMountedById, MountObj.removePassenger, hadd]
      have h1 := List.length_erase_of_mem hmem
      have h2 : 0 < g.dockOrigin.mount.passengers.length :=
        List.length_pos.2 (List.ne_nil_of_mem hmem)
      simp [h1, List.length_append]
      omega
    · simp only [Game.setDockAt, Game.setBoat, Game.setMountedById, hadd]
      simp [List.length_append]
      omega
    · intro hpv
      simp only [Game.setDockAt, Game.setBoat, Game.setMountedById]
      simp [hloc]
    · intro v hv
      simp only [Game.setDockAt, Game.setBoat, Game.setMountedById] at hv
      simp [hp] at hv
    · simp [Game.setDockAt, Game.setBoat, Game.setMountedById]
    · simp [Game.setDockAt, Game.setBoat, Game.setMountedById, MountObj.removePassenger]
    · simp [Game.setDockAt, Game.setBoat, Game.setMountedById]
  | destination =>
    rw [hloc] at hd
    have hdo : d = g.dockDestination := by
      simpa [Game.getDockByLocation] using hd.symm
    subst hdo
    refine Game.Inv.transfer g _ hI ?_ ?_ ?_ ?_ ?_ ?_ ?_ ?_ ?_
    · exact setMountedById_avatars_ids _ id MountStatus.onBoat
    · intro x
      simp only [Game.setDockAt, Game.setBoat, Game.setMountedById, MountObj.removePassenger, hadd]
      by_cases hx : x = id
      · subst hx
        have hpos : 0 < g.dockDestination.mount.passengers.count x := List.count_pos_iff.2 hmem
        simp [List.count_erase_self, List.count_append]
        omega
      · simp [List.count_erase_of_ne (Ne.symm hx), List.count_append,
          List.count_singleton', hx]
    · simp only [Game.setDockAt, Game.setBoat, Game.setMountedById, MountObj.removePassenger, hadd]
      have h1 := List.length_erase_of_mem hmem
      have h2 : 0 < g.dockDestination.mount.passengers.length :=
        List.length_pos.2 (List.ne_nil_of_mem hmem)
      simp [h1, List.length_append]
      omega
    · simp only [Game.setDockAt, Game.setBoat, Game.setMountedById, hadd]
      simp [List.length_append]
      omega
    · intro hpv
      simp only [Game.setDockAt, Game.setBoat, Game.setMountedById]
      simp [hloc]
    · intro v hv
      simp only [Game.setDockAt, Game.setBoat, Game.setMountedById] at hv
      simp [hp] at hv
    · simp [Game.setDockAt, Game.setBoat, Game.setMountedById]
    · simp [Game.setDockAt, Game.setBoat, Game.setMountedById]
    · simp [Game.setDockAt, Game.setBoat, Game.setMountedById, MountObj.removePassenger]

theorem setBoat_getDockByLocation (g : Game) (b : Boat) (loc : Location) :
    (g.setBoat b).getDockByLocation loc = g.getDockByLocation loc := by
  cases loc <;> rfl

theorem inv_disembark (g : Game) (id : Nat) (d : Dock) (hI : g.Inv) (hp : g.pendingVoyage = none)
    (hmem : id ∈ g.boat.mount.passengers)
    (hd : g.getDockByLocation g.boat.location = some d) :
    Game.Inv (((g.setBoat { g.boat with mount := g.boat.mount.removePassenger id }).setDockAt
        g.boat.location { d with mount := d.mount.addPassenger id }).setMountedById id MountStatus.onDock) := by
  have hlocne : g.boat.location ≠ Location.river := hI.dockedIdle hp
  have hblen : 0 < g.boat.mount.passengers.length :=
    List.length_pos.2 (List.ne_nil_of_mem hmem)
  have herase := List.length_erase_of_mem hmem
  cases hloc : g.boat.location with
  | river => exact absurd hloc hlocne
  | origin =>
    rw [hloc] at hd
    have hdo : d = g.dockOrigin := by
      simpa [Game.getDockByLocation] using hd.symm
    subst hdo
    have hdlen : g.dockOrigin.mount.passengers.length < g.dockOrigin.mount.maxCapacity := by
      have := hI.totalLen
      have := hI.dockCapO
      omega
    have hadd : g.dockOrigin.mount.addPassenger id =
        { g.dockOrigin.mount with passengers := g.dockOrigin.mount.passengers ++ [id] } :=
      MountObj.addPassenger_of_not_full _ _ hdlen
    refine Game.Inv.transfer g _ hI ?_ ?_ ?_ ?_ ?_ ?_ ?_ ?_ ?_
    · exact setMountedById_avatars_ids _ id MountStatus.onDock
    · intro x
      simp only [Game.setDockAt, Game.setBoat, Game.setMountedById, MountObj.removePassenger, hadd]
      by_cases hx : x = id
      · subst hx
        have hpos : 0 < g.boat.mount.passengers.count x := List.count_pos_iff.2 hmem
        simp [List.count_erase_self, List.count_append]
        omega
      · simp [List.count_erase_of_ne (Ne.symm hx), List.count_append,
          List.count_singleton', hx]
    · simp only [Game.setDockAt, Game.setBoat, Game.setMountedById, MountObj.removePassenger, hadd]
      simp [herase, List.length_append]
      omega
    · simp only [Game.setDockAt, Game.setBoat, Game.setMountedById, MountObj.removePassenger]
      have := hI.boatMax
      simp [herase]
      omega
    · intro hpv
      simp only [Game.setDockAt, Game.setBoat, Game.setMountedById]
      simp [hloc]
    · intro v hv
      simp only [Game.setDockAt, Game.setBoat, Game.setMountedById] at hv
      simp [hp] at hv
    · simp [Game.setDockAt, Game.setBoat, Game.setMountedById]
    · simp [Game.setDockAt, Game.setBoat, Game.setMountedById, hadd]
    · simp [Game.setDockAt, Game.setBoat, Game.setMountedById]
  | destination =>
    rw [hloc] at hd
    have hdo : d = g.dockDestination := by
      simpa [Game.getDockByLocation] using hd.symm
    subst hdo
    have hdlen : g.dockDestination.mount.passengers.length < g.dockDestination.mount.maxCapacity := by
      have := hI.totalLen
      have := hI.dockCapD
      omega
    have hadd : g.dockDestination.mount.addPassenger id =
        { g.dockDestination.mount with passengers := g.dockDestination.mount.passengers ++ [id] } :=
      MountObj.addPassenger_of_not_full _ _ hdlen
    refine Game.Inv.transfer g _ hI ?_ ?_ ?_ ?_ ?_ ?_ ?_ ?_ ?_
    · exact setMountedById_avatars_ids _ id MountStatus.onDock
    · intro x
      simp only [Game.setDockAt, Game.setBoat, Game.setMountedById, MountObj.removePassenger, hadd]
      by_cases hx : x = id
      · subst hx
        have hpos : 0 < g.boat.mount.passengers.count x := List.count_pos_iff.2 hmem
        simp [List.count_erase_self, List.count_append]
        omega
      · simp [List.count_erase_of_ne (Ne.symm hx), List.count_append,
          List.count_singleton', hx]
    · simp only [Game.setDockAt, Game.setBoat, Game.setMountedById, MountObj.removePassenger, hadd]
      simp [herase, List.length_append]
      omega
    · simp only [Game.setDockAt, Game.setBoat, Game.setMountedById, MountObj.removePassenger]
      have := hI.boatMax
      simp [herase]
      omega
    · intro hpv
      simp only [Game.setDockAt, Game.setBoat, Game.setMountedById]
      simp [hloc]
    · intro v hv
      simp only [Game.setDockAt, Game.setBoat, Game.setMountedById] at hv
      simp [hp] at hv
    · simp [Game.setDockAt, Game.setBoat, Game.setMountedById]
    · simp [Game.setDockAt, Game.setBoat, Game.setMountedById]
    · simp [Game.setDockAt, Game.setBoat, Game.setMountedById, hadd]

theorem inv_handleAvatarClick (g : Game) (id : Nat) (hI : g.Inv) (hp : g.pendingVoyage = none) :
    ((g.handleAvatarClick id).1).Inv := by
  unfold Game.handleAvatarClick
  split
  · exact hI
  · split
    · exact hI
    · rename_i avatar heqA
      split
      · split
        · exact hI
        · rename_i currentDock heqD
          split
          · exact hI
          · split
            · exact hI
            · rename_i hnp hnf
              have hmem : id ∈ currentDock.mount.passengers := by
                have hb : currentDock.mount.hasPassenger id = true := by
                  revert hnp
                  cases currentDock.mount.hasPassenger id <;> simp
                exact (MountObj.hasPassenger_iff _ _).1 hb
              have hfull : g.boat.mount.isFull = false := by
                revert hnf
                cases g.boat.mount.isFull <;> simp
              exact inv_board g id currentDock hI hp heqD hmem hfull
      · split
        · exact hI
        · rename_i hnp
          have hmem : id ∈ g.boat.mount.passengers := by
            have hb : g.boat.mount.hasPassenger id = true := by
              revert hnp
              cases g.boat.mount.hasPassenger id <;> simp
            exact (MountObj.hasPassenger_iff _ _).1 hb
          split
          · rename_i heqD
            rw [setBoat_getDockByLocation] at heqD
            have : g.boat.location = Location.river := (getDockByLocation_none_iff g _).1 heqD
            exact absurd this (hI.dockedIdle hp)
          · rename_i currentDock heqD
            rw [setBoat_getDockByLocation] at heqD
            exact inv_disembark g id currentDock hI hp hmem heqD

theorem getDestinationLocation_ne_river (b : Boat) :
    b.getDestinationLocation ≠ Location.river := by
  unfold Boat.getDestinationLocation
  cases b.location <;> simp

theorem inv_set_status (g : Game) (s : GameStatus) (hI : g.Inv) :
    Game.Inv { g with status := s } :=
  ⟨hI.idsNodup, hI.oneContainer, hI.totalLen, hI.boatMax, hI.dockedIdle, hI.targetSide,
    hI.dockCapO, hI.dockCapD⟩

theorem inv_handleGameStatus (g : Game) (hI : g.Inv) : ((g.handleGameStatus).1).Inv := by
  unfold Game.handleGameStatus
  split
  · exact hI
  · split
    · exact inv_set_status g _ hI
    · split
      · exact inv_set_status g _ hI
      · split
        · exact inv_set_status g _ hI
        · exact hI

theorem inv_handleBoatClick (g : Game) (hI : g.Inv) : ((g.handleBoatClick).1).Inv := by
  unfold Game.handleBoatClick
  split
  · exact hI
  · split
    · exact hI
    · refine Game.Inv.transfer g _ hI ?_ ?_ ?_ ?_ ?_ ?_ ?_ ?_ ?_
      · exact setLocationOfBoatPassengers_avatars_ids _ Location.river
      · intro x
        rfl
      · rfl
      · exact hI.boatMax
      · intro hpv
        simp [Game.setBoat, Game.setLocationOfBoatPassengers] at hpv
      · intro v hv
        simp only [Game.setBoat, Game.setLocationOfBoatPassengers] at hv
        have : g.boat.getDestinationLocation = v := by
          simpa using hv
        rw [← this]
        exact getDestinationLocation_ne_river g.boat
      · rfl
      · rfl
      · rfl

theorem inv_completeVoyage (g : Game) (hI : g.Inv) : ((g.completeVoyage).1).Inv := by
  unfold Game.completeVoyage
  split
  · exact hI
  · rename_i v hpv
    refine inv_handleGameStatus _ ?_
    refine Game.Inv.transfer g _ hI ?_ ?_ ?_ ?_ ?_ ?_ ?_ ?_ ?_
    · exact setLocationOfBoatPassengers_avatars_ids _ v
    · intro x
      rfl
    · rfl
    · exact hI.boatMax
    · intro hx
      simp only [Game.setBoat, Game.setLocationOfBoatPassengers]
      exact hI.targetSide v hpv
    · intro w hw
      simp [Game.setBoat, Game.setLocationOfBoatPassengers] at hw
    · rfl
    · rfl
    · rfl

theorem spawn_fold_state (as : List Avatar) (g : Game)
    (hcap : g.dockOrigin.mount.passengers.length + as.length ≤ g.dockOrigin.mount.maxCapacity) :
    (as.foldl Game.spawnAvatar g).avatars = g.avatars ++ as ∧
    (as.foldl Game.spawnAvatar g).dockOrigin.mount.passengers
        = g.dockOrigin.mount.passengers ++ as.map Avatar.id ∧
    (as.foldl Game.spawnAvatar g).dockOrigin.mount.maxCapacity = g.dockOrigin.mount.maxCapacity ∧
    (as.foldl Game.spawnAvatar g).dockOrigin.location = g.dockOrigin.location ∧
    (as.foldl Game.spawnAvatar g).dockDestination = g.dockDestination ∧
    (as.foldl Game.spawnAvatar g).boat = g.boat ∧
    (as.foldl Game.spawnAvatar g).totalAvatars = g.totalAvatars ∧
    (as.foldl Game.spawnAvatar g).pendingVoyage = g.pendingVoyage := by
  induction as generalizing g with
  | nil => simp
  | cons a t ih =>
    have hlt : g.dockOrigin.mount.passengers.length < g.dockOrigin.mount.maxCapacity := by
      simp at hcap
      omega
    have hadd : g.dockOrigin.mount.addPassenger a.id =
        { g.dockOrigin.mount with passengers := g.dockOrigin.mount.passengers ++ [a.id] } :=
      MountObj.addPassenger_of_not_full _ _ hlt
    have hstep : Game.spawnAvatar g a =
        { g with avatars := g.avatars ++ [a],
                 dockOrigin := { g.dockOrigin with
                    mount := { g.dockOrigin.mount with
                      passengers := g.dockOrigin.mount.passengers ++ [a.id] } } } := by
      unfold Game.spawnAvatar
      rw [hadd]
    have hcap' : (Game.spawnAvatar g a).dockOrigin.mount.passengers.length + t.length ≤
        (Game.spawnAvatar g a).dockOrigin.mount.maxCapacity := by
      rw [hstep]
      simp at hcap ⊢
      omega
    have ihx := ih (Game.spawnAvatar g a) hcap'
    rw [hstep] at ihx
    simp only [List.foldl_cons]
    rw [hstep]
    simp only at ihx ⊢
    obtain ⟨i1, i2, i3, i4, i5, i6, i7, i8⟩ := ihx
    refine ⟨?_, ?_, ?_, ?_, ?_, ?_, ?_, ?_⟩
    · rw [i1]; simp
    · rw [i2]; simp
    · rw [i3]
    · rw [i4]
    · rw [i5]
    · rw [i6]
    · rw [i7]
    · rw [i8]

theorem initAvatars_ids (numMonsters numHumans : Nat) :
    (initAvatars numMonsters numHumans).map Avatar.id
      = List.range numMonsters ++ (List.range numHumans).map (fun i => numMonsters + i) := by
  simp [initAvatars, List.map_map, Function.comp_def]

theorem initAvatars_length (numMonsters numHumans : Nat) :
    (initAvatars numMonsters numHumans).length = numMonsters + numHumans := by
  simp [initAvatars]

theorem initAvatars_ids_nodup (numMonsters numHumans : Nat) :
    ((initAvatars numMonsters numHumans).map Avatar.id).Nodup := by
  rw [initAvatars_ids]
  refine List.Nodup.append (List.nodup_range _) ?_ ?_
  · exact List.Nodup.map (fun i j hij => by omega) (List.nodup_range _)
  · intro x hx hy
    have h1 : x < numMonsters := List.mem_range.1 hx
    obtain ⟨i, hi, rfl⟩ := List.mem_map.1 hy
    omega

theorem inv_initialize (numMonsters numHumans boatCapacity : Nat) :
    (Game.initGame numMonsters numHumans boatCapacity).Inv := by
  have hcap : (Game.initBase numMonsters numHumans boatCapacity).dockOrigin.mount.passengers.length
      + (initAvatars numMonsters numHumans).length
      ≤ (Game.initBase numMonsters numHumans boatCapacity).dockOrigin.mount.maxCapacity := by
    simp [Game.initBase, initAvatars_length]
  obtain ⟨i1, i2, i3, i4, i5, i6, i7, i8⟩ :=
    spawn_fold_state (initAvatars numMonsters numHumans)
      (Game.initBase numMonsters numHumans boatCapacity) hcap
  unfold Game.initGame
  constructor
  · rw [i1]
    simp only [Game.initBase, List.nil_append]
    exact initAvatars_ids_nodup numMonsters numHumans
  · intro a ha
    rw [i1] at ha
    simp only [Game.initBase, List.nil_append] at ha
    rw [i2, i5, i6]
    simp only [Game.initBase, List.nil_append, List.count_nil]
    have hmem : a.id ∈ (initAvatars numMonsters numHumans).map Avatar.id :=
      List.mem_map_of_mem Avatar.id ha
    have := List.count_eq_one_of_mem (initAvatars_ids_nodup numMonsters numHumans) hmem
    omega
  · rw [i2, i5, i6, i7]
    simp [Game.initBase, initAvatars_length]
  · rw [i6]
    simp [Game.initBase]
  · intro hpv
    rw [i6]
    simp [Game.initBase]
  · intro v hv
    rw [i8] at hv
    simp [Game.initBase] at hv
  · rw [i3, i7]
    simp [Game.initBase]
  · rw [i5, i7]
    simp [Game.initBase]

theorem reachable_inv (numMonsters numHumans boatCapacity : Nat) (g : Game)
    (hr : Game.Reachable numMonsters numHumans boatCapacity g) : g.Inv := by
  induction hr with
  | refl => exact inv_initialize numMonsters numHumans boatCapacity
  | tail hab hbc ih =>
    cases hbc with
    | avatarClick id hp => exact inv_handleAvatarClick _ id ih hp
    | boatClick hp => exact inv_handleBoatClick _ ih
    | voyageComplete => exact inv_completeVoyage _ ih

theorem gFlight332_reachable : Game.Reachable 3 3 2 gFlight332 := by
  have s1 : Game.Step (Game.initGame 3 3 2) gBoarded332 :=
    Game.Step.avatarClick (Game.initGame 3 3 2) 0 (by decide)
  have s2 : Game.Step gBoarded332 gFlight332 :=
    Game.Step.boatClick gBoarded332 (by decide)
  exact Relation.ReflTransGen.tail (Relation.ReflTransGen.tail Relation.ReflTransGen.refl s1) s2

theorem gWon112_reachable : Game.Reachable 1 1 2 gWon112 := by
  have s1 : Game.Step (Game.initGame 1 1 2) gW112a :=
    Game.Step.avatarClick (Game.initGame 1 1 2) 0 (by decide)
  have s2 : Game.Step gW112a gW112b :=
    Game.Step.avatarClick gW112a 1 (by decide)
  have s3 : Game.Step gW112b gW112c :=
    Game.Step.boatClick gW112b (by decide)
  have s4 : Game.Step gW112c gWon112 :=
    Game.Step.voyageComplete gW112c
  exact Relation.ReflTransGen.tail (Relation.ReflTransGen.tail (Relation.ReflTransGen.tail
    (Relation.ReflTransGen.tail Relation.ReflTransGen.refl s1) s2) s3) s4

theorem gFlight533_reachable : Game.Reachable 5 3 3 gFlight533 := by
  have s1 : Game.Step (Game.initGame 5 3 3) g533a :=
    Game.Step.avatarClick (Game.initGame 5 3 3) 5 (by decide)
  have s2 : Game.Step g533a g533b :=
    Game.Step.avatarClick g533a 0 (by decide)
  have s3 : Game.Step g533b g533c :=
    Game.Step.avatarClick g533b 1 (by decide)
  have s4 : Game.Step g533c gFlight533 :=
    Game.Step.boatClick g533c (by decide)
  exact Relation.ReflTransGen.tail (Relation.ReflTransGen.tail (Relation.ReflTransGen.tail
    (Relation.ReflTransGen.tail Relation.ReflTransGen.refl s1) s2) s3) s4

/-- C8: in every state reachable by the engine's commands from a freshly
initialized game, every avatar belongs to exactly one of the origin dock's,
the boat's and the destination dock's passenger lists (it occurs exactly
once across the three), and the three container sizes sum to the configured
total avatar count. -/
theorem claim8_avatar_partition (numMonsters numHumans boatCapacity : Nat) (g : Game)
    (hr : Game.Reachable numMonsters numHumans boatCapacity g) :
    (∀ a ∈ g.avatars,
      g.dockOrigin.mount.passengers.count a.id + g.boat.mount.passengers.count a.id +
        g.dockDestination.mount.passengers.count a.id = 1) ∧
    g.dockOrigin.mount.getPassengerCount + g.boat.mount.getPassengerCount +
        g.dockDestination.mount.getPassengerCount = g.totalAvatars := by
  have hI := reachable_inv numMonsters numHumans boatCapacity g hr
  exact ⟨hI.oneContainer, hI.totalLen⟩

/-- Witness for C8 at the freshly initialized standard game. -/
theorem claim8_witness :
    (Game.initGame 3 3 2).dockOrigin.mount.getPassengerCount +
        (Game.initGame 3 3 2).boat.mount.getPassengerCount +
        (Game.initGame 3 3 2).dockDestination.mount.getPassengerCount
      = (Game.initGame 3 3 2).totalAvatars ∧
    (Game.initGame 3 3 2).dockOrigin.mount.passengers.count 0 +
        (Game.initGame 3 3 2).boat.mount.passengers.count 0 +
        (Game.initGame 3 3 2).dockDestination.mount.passengers.count 0 = 1 := by
  refine ⟨(claim8_avatar_partition 3 3 2 _ Relation.ReflTransGen.refl).2, ?_⟩
  exact (claim8_avatar_partition 3 3 2 _ Relation.ReflTransGen.refl).1
    { id := 0, kind := AvatarType.monster, location := Location.origin,
      mounted := MountStatus.onDock } (by decide)

/-- C9: in every reachable state the boat's passenger count never exceeds
its maximum capacity. -/
theorem claim9_boat_capacity (numMonsters numHumans boatCapacity : Nat) (g : Game)
    (hr : Game.Reachable numMonsters numHumans boatCapacity g) :
    g.boat.mount.getPassengerCount ≤ g.boat.mount.maxCapacity :=
  (reachable_inv numMonsters numHumans boatCapacity g hr).boatMax

/-- Witness for C9 at a reachable mid-voyage state with one passenger. -/
theorem claim9_witness :
    gFlight332.boat.mount.getPassengerCount ≤ gFlight332.boat.mount.maxCapacity :=
  claim9_boat_capacity 3 3 2 gFlight332 gFlight332_reachable

/-- C4 counterexample: a reachable in-flight state (voyage pending) where the
engine's launch handler neither rejects nor ignores the command: it mutates
the state, incrementing the trip counter again. -/
theorem claim4_counterexample :
    Game.Reachable 3 3 2 gFlight332 ∧
    gFlight332.pendingVoyage = some Location.destination ∧
    (gFlight332.handleBoatClick).2 = LaunchResult.launched ∧
    (gFlight332.handleBoatClick).1.tripCount = gFlight332.tripCount + 1 :=
  ⟨gFlight332_reachable, by decide, by decide, by decide⟩

/-- C4 as amended: mid-voyage commands are suppressed by the presentation
layer, not the engine: the click handlers installed by the view run the
engine call only while the view's `isAnimating` flag is unset, and pass the
click through unchanged when it is unset. -/
theorem claim4_view_guard (g : Game) (id : Nat) (b : Bool) :
    (b = true → ViewController.avatarElementClick b g id = g ∧
      ViewController.boatActionClick b g = g) ∧
    (b = false → ViewController.avatarElementClick b g id = (g.handleAvatarClick id).1 ∧
      ViewController.boatActionClick b g = (g.handleBoatClick).1) := by
  constructor <;> intro hb <;> subst hb <;> exact ⟨rfl, rfl⟩

/-- Witness for C4's amended claim at the reachable in-flight state. -/
theorem claim4_witness :
    ViewController.avatarElementClick true gFlight332 1 = gFlight332 ∧
    ViewController.boatActionClick true gFlight332 = gFlight332 :=
  (claim4_view_guard gFlight332 1 true).1 rfl

/-- C5 counterexample: at a reachable in-flight state, clicking a docked
avatar reaches `getDockByLocation(RIVER)`, which returns null, and the
subsequent method call throws a TypeError instead of returning a non-fatal
rejection. -/
theorem claim5_counterexample :
    Game.Reachable 3 3 2 gFlight332 ∧
    gFlight332.status = GameStatus.ongoing ∧
    (gFlight332.getAvatarById 1).map Avatar.mounted = some MountStatus.onDock ∧
    (gFlight332.handleAvatarClick 1).2 = ClickResult.throwTypeError :=
  ⟨gFlight332_reachable, by decide, by decide, by decide⟩

/-- C5 as amended: every rejection path of the engine's click handlers is a
no-op on the game state, and no TypeError path is reachable while the boat
is docked at a shore; only board/disembark issued while the boat is
mid-river hit the null dock. -/
theorem claim5_rejections (g : Game) (id : Nat) :
    (g.boat.location ≠ Location.river →
      (g.handleAvatarClick id).2 ≠ ClickResult.throwTypeError) ∧
    ((g.handleAvatarClick id).2 = ClickResult.noopTerminal ∨
     (g.handleAvatarClick id).2 = ClickResult.noopUnknownAvatar ∨
     (g.handleAvatarClick id).2 = ClickResult.msgOtherSide ∨
     (g.handleAvatarClick id).2 = ClickResult.msgFullCapacity ∨
     (g.handleAvatarClick id).2 = ClickResult.noopNotAboard →
      (g.handleAvatarClick id).1 = g) ∧
    ((g.handleBoatClick).2 ≠ LaunchResult.launched → (g.handleBoatClick).1 = g) := by
  refine ⟨?_, ?_, ?_⟩
  · intro hl
    unfold Game.handleAvatarClick
    split
    · simp
    · split
      · simp
      · split
        · split
          · rename_i heqD
            exact absurd ((getDockByLocation_none_iff g _).1 heqD) hl
          · split
            · simp
            · split
              · simp
              · simp
        · split
          · simp
          · split
            · rename_i heqD
              rw [setBoat_getDockByLocation] at heqD
              exact absurd ((getDockByLocation_none_iff g _).1 heqD) hl
            · simp
  · unfold Game.handleAvatarClick
    split
    · intro h
      rfl
    · split
      · intro h
        rfl
      · split
        · split
          · intro h
            rfl
          · split
            · intro h
              rfl
            · split
              · intro h
                rfl
              · intro h
                simp at h
        · split
          · intro h
            rfl
          · split
            · intro h
              simp at h
            · intro h
              simp at h
  · unfold Game.handleBoatClick
    split
    · intro h
      rfl
    · split
      · intro h
        rfl
      · intro h
        exact absurd rfl h

/-- Witness for C5's amended claim at the reachable terminal (won) state:
clicking an avatar or the boat is rejected without a throw and leaves the
state unchanged. -/
theorem claim5_witness :
    ((gWon112.handleAvatarClick 0).2 ≠ ClickResult.throwTypeError) ∧
    ((gWon112.handleAvatarClick 0).1 = gWon112) ∧
    ((gWon112.handleBoatClick).1 = gWon112) :=
  ⟨(claim5_rejections gWon112 0).1 (by decide),
   (claim5_rejections gWon112 0).2.1 (Or.inl (by decide)),
   (claim5_rejections gWon112 0).2.2 (by decide)⟩

/-- C1: for every game state with status ongoing, the outcome evaluation
declares a win exactly when the origin dock is empty, the boat is at the
destination, and the destination dock's passenger count plus the boat's is
at least the total avatar count; on a state that is no longer ongoing the
evaluation changes nothing, so won is never declared elsewhere. -/
theorem claim1_win_iff (g : Game) :
    (g.status = GameStatus.ongoing →
      (((g.handleGameStatus).1).status = GameStatus.won ↔ g.winCond = true)) ∧
    (g.status ≠ GameStatus.ongoing → g.handleGameStatus = (g, EvalOutcome.alreadyTerminal)) := by
  constructor
  · intro hs
    unfold Game.handleGameStatus
    rw [if_neg (by simp [hs])]
    by_cases hw : g.winCond = true
    · rw [if_pos hw]
      simp [hw]
    · rw [if_neg hw]
      have hwf : g.winCond = false := by
        revert hw
        cases g.winCond <;> simp
      split
      · simp [hwf]
      · split
        · simp [hwf]
        · simp [hs, hwf]
  · intro hs
    unfold Game.handleGameStatus
    rw [if_pos hs]

/-- Witness for C1 at the arrival state of a winning voyage (and the iff
also instantiated at the fresh game, where the win condition fails). -/
theorem claim1_witness :
    (((gArrive112.handleGameStatus).1).status = GameStatus.won ↔ gArrive112.winCond = true) ∧
    ((((Game.initGame 3 3 2).handleGameStatus).1).status = GameStatus.won ↔
      (Game.initGame 3 3 2).winCond = true) :=
  ⟨(claim1_win_iff gArrive112).1 (by decide),
   (claim1_win_iff (Game.initGame 3 3 2)).1 (by decide)⟩

/-- C10: when the outcome evaluation runs on an ongoing game whose origin
side and destination side are both unbalanced, the loss is attributed to the
origin dock: the evaluation returns the lost state tagged with the origin
dock's side, and the feast lists are computed from the origin dock (plus the
boat when it is docked at the origin), never from the destination dock. -/
theorem claim10_origin_first (g : Game)
    (hs : g.status = GameStatus.ongoing)
    (hloc : g.dockOrigin.location = Location.origin)
    (ho : g.isBalanced g.dockOrigin = false)
    (hd : g.isBalanced g.dockDestination = false) :
    g.handleGameStatus = ({ g with status := GameStatus.lost },
      EvalOutcome.declaredLost g.dockOrigin.location
        (g.handleFeast g.dockOrigin).1 (g.handleFeast g.dockOrigin).2) := by
  have hw : g.winCond = false := by
    cases hwc : g.winCond with
    | false => rfl
    | true =>
      exfalso
      unfold Game.winCond at hwc
      simp only [Bool.and_eq_true, decide_eq_true_eq] at hwc
      obtain ⟨⟨hemp, hbl⟩, hcnt⟩ := hwc
      have hempty : g.dockOrigin.mount.passengers = [] := by
        simpa [MountObj.isEmpty] using hemp
      have hbal : g.isBalanced g.dockOrigin = true := by
        unfold Game.isBalanced Game.sideCount Game.countOfKind
        rw [hempty, if_neg (by rw [hloc, hbl]; simp)]
        simp
      rw [hbal] at ho
      cases ho
  unfold Game.handleGameStatus
  rw [if_neg (by simp [hs]), if_neg (by simp [hw]), if_pos ho]

/-- Witness for C10 at a concrete state with both sides unbalanced. -/
theorem claim10_witness :
    gBothSidesOff.handleGameStatus = ({ gBothSidesOff with status := GameStatus.lost },
      EvalOutcome.declaredLost gBothSidesOff.dockOrigin.location
        (gBothSidesOff.handleFeast gBothSidesOff.dockOrigin).1
        (gBothSidesOff.handleFeast gBothSidesOff.dockOrigin).2) :=
  claim10_origin_first gBothSidesOff (by decide) (by decide) (by decide) (by decide)

/-- C2 counterexample: a reachable voyage whose completion finds the
destination side with one human and two monsters (human count positive and
exceeded by monsters), yet the outcome evaluation tags the origin dock, not
the destination dock, because the origin side is also unbalanced and is
checked first. -/
theorem claim2_counterexample :
    Game.Reachable 5 3 3 gFlight533 ∧
    (gFlight533.completeVoyage).2
      = some (EvalOutcome.declaredLost Location.origin [2, 3, 4] [6, 7]) ∧
    0 < ((gFlight533.completeVoyage).1).sideCount
        ((gFlight533.completeVoyage).1).dockDestination AvatarType.human ∧
    ((gFlight533.completeVoyage).1).sideCount
        ((gFlight533.completeVoyage).1).dockDestination AvatarType.human
      < ((gFlight533.completeVoyage).1).sideCount
        ((gFlight533.completeVoyage).1).dockDestination AvatarType.monster :=
  ⟨gFlight533_reachable, by decide, by decide, by decide⟩

/-- C2 as amended: a side is unbalanced exactly when its human count (dock
passengers plus the boat's when docked there) is positive and strictly below
its monster count; on an ongoing game where the win condition fails, the
outcome evaluation declares a loss exactly when a side is unbalanced,
tagging the origin dock whenever the origin side is unbalanced and the
destination dock only otherwise; balanced sides trigger no loss. -/
theorem claim2_balance (g : Game) :
    (∀ d : Dock, g.isBalanced d = false ↔
      0 < g.sideCount d AvatarType.human ∧
        g.sideCount d AvatarType.human < g.sideCount d AvatarType.monster) ∧
    (g.status = GameStatus.ongoing → g.winCond = false →
      ((((g.handleGameStatus).1).status = GameStatus.lost ↔
          g.isBalanced g.dockOrigin = false ∨ g.isBalanced g.dockDestination = false) ∧
       (g.isBalanced g.dockOrigin = false →
          (g.handleGameStatus).2 = EvalOutcome.declaredLost g.dockOrigin.location
            (g.handleFeast g.dockOrigin).1 (g.handleFeast g.dockOrigin).2) ∧
       (g.isBalanced g.dockOrigin = true → g.isBalanced g.dockDestination = false →
          (g.handleGameStatus).2 = EvalOutcome.declaredLost g.dockDestination.location
            (g.handleFeast g.dockDestination).1 (g.handleFeast g.dockDestination).2) ∧
       (g.isBalanced g.dockOrigin = true → g.isBalanced g.dockDestination = true →
          g.handleGameStatus = (g, EvalOutcome.stillOngoing)))) := by
  constructor
  · intro d
    unfold Game.isBalanced
    simp only [Bool.or_eq_false_iff, decide_eq_false_iff_not]
    omega
  · intro hs hw
    unfold Game.handleGameStatus
    rw [if_neg (by simp [hs]), if_neg (by simp [hw])]
    by_cases hbo : g.isBalanced g.dockOrigin = false
    · rw [if_pos hbo]
      refine ⟨by simp [hbo], fun _ => rfl, ?_, ?_⟩
      · intro h1 _
        rw [h1] at hbo
        cases hbo
      · intro h1 _
        rw [h1] at hbo
        cases hbo
    · have hbo' : g.isBalanced g.dockOrigin = true := by
        revert hbo
        cases g.isBalanced g.dockOrigin <;> simp
      rw [if_neg hbo]
      by_cases hbd : g.isBalanced g.dockDestination = false
      · rw [if_pos hbd]
        refine ⟨by simp [hbd], ?_, fun _ _ => rfl, ?_⟩
        · intro h1
          rw [h1] at hbo'
          cases hbo'
        · intro _ h2
          rw [h2] at hbd
          cases hbd
      · have hbd' : g.isBalanced g.dockDestination = true := by
          revert hbd
          cases g.isBalanced g.dockDestination <;> simp
        rw [if_neg hbd]
        refine ⟨by simp [hs, hbo', hbd'], ?_, ?_, fun _ _ => rfl⟩
        · intro h1
          rw [h1] at hbo'
          cases hbo'
        · intro _ h2
          rw [h2] at hbd'
          cases hbd'

/-- Witness for C2's amended claim at the concrete both-unbalanced state. -/
theorem claim2_witness :
    (gBothSidesOff.isBalanced gBothSidesOff.dockOrigin = false ↔
      0 < gBothSidesOff.sideCount gBothSidesOff.dockOrigin AvatarType.human ∧
        gBothSidesOff.sideCount gBothSidesOff.dockOrigin AvatarType.human
          < gBothSidesOff.sideCount gBothSidesOff.dockOrigin AvatarType.monster) ∧
    (gBothSidesOff.handleGameStatus).2 = EvalOutcome.declaredLost gBothSidesOff.dockOrigin.location
      (gBothSidesOff.handleFeast gBothSidesOff.dockOrigin).1
      (gBothSidesOff.handleFeast gBothSidesOff.dockOrigin).2 :=
  ⟨(claim2_balance gBothSidesOff).1 gBothSidesOff.dockOrigin,
   ((claim2_balance gBothSidesOff).2 (by decide) (by decide)).2.1 (by decide)⟩

/-- C3: on an ongoing game with the boat docked at a shore, launching
succeeds exactly when the boat carries at least its minimum sail capacity;
on success the boat's status becomes sailing, the boat and every passenger's
zone become in-transit (the river), the trip counter increments by exactly
one, and the pending voyage targets the side opposite the boat's pre-launch
location; on rejection the state, and so the ongoing status, is unchanged. -/
theorem claim3_launch (g : Game) (hs : g.status = GameStatus.ongoing)
    (hl : g.boat.location ≠ Location.river) :
    ((g.handleBoatClick).2 = LaunchResult.launched ↔
        g.boat.mount.minCapacity ≤ g.boat.mount.getPassengerCount) ∧
    (g.boat.canSail = true →
      ((g.handleBoatClick).1.boat.status = BoatStatus.sailing ∧
       (g.handleBoatClick).1.boat.location = Location.river ∧
       (∀ a ∈ (g.handleBoatClick).1.avatars,
          g.boat.mount.hasPassenger a.id = true → a.location = Location.river) ∧
       (g.handleBoatClick).1.tripCount = g.tripCount + 1 ∧
       (g.handleBoatClick).1.pendingVoyage =
         some (if g.boat.location = Location.origin then Location.destination
               else Location.origin))) ∧
    (g.boat.canSail = false → g.handleBoatClick = (g, LaunchResult.msgNeedCrew)) := by
  refine ⟨?_, ?_, ?_⟩
  · unfold Game.handleBoatClick
    rw [if_neg (by simp [hs])]
    by_cases hc : g.boat.canSail = false
    · rw [if_pos hc]
      unfold Boat.canSail at hc
      simp only [decide_eq_false_iff_not] at hc
      simp [MountObj.getPassengerCount, hc]
    · rw [if_neg hc]
      have hc' : g.boat.canSail = true := by
        revert hc
        cases g.boat.canSail <;> simp
      unfold Boat.canSail at hc'
      simp only [decide_eq_true_eq] at hc'
      simp [MountObj.getPassengerCount, hc']
  · intro hc
    unfold Game.handleBoatClick
    rw [if_neg (by simp [hs]), if_neg (by simp [hc])]
    refine ⟨rfl, rfl, ?_, rfl, ?_⟩
    · intro a ha hp
      simp only [Game.setBoat, Game.setLocationOfBoatPassengers] at ha
      obtain ⟨b, hb, rfl⟩ := List.mem_map.1 ha
      by_cases hpb : g.boat.mount.hasPassenger b.id = true
      · simp [hpb]
      · rw [if_neg (by simp [hpb])] at hp ⊢
        exact absurd hp hpb
    · simp only [Game.setBoat, Game.setLocationOfBoatPassengers]
      unfold Boat.getDestinationLocation
      cases hbl : g.boat.location with
      | origin => simp
      | destination => simp
      | river => exact absurd hbl hl
  · intro hc
    unfold Game.handleBoatClick
    rw [if_neg (by simp [hs]), if_pos (by simp [hc])]

/-- Witness for C3 at the one-passenger boarded state of the standard game. -/
theorem claim3_witness :
    ((gBoarded332.handleBoatClick).2 = LaunchResult.launched ↔
        gBoarded332.boat.mount.minCapacity ≤ gBoarded332.boat.mount.getPassengerCount) ∧
    (gBoarded332.handleBoatClick).1.boat.status = BoatStatus.sailing ∧
    (gBoarded332.handleBoatClick).1.boat.location = Location.river ∧
    (gBoarded332.handleBoatClick).1.tripCount = gBoarded332.tripCount + 1 ∧
    (gBoarded332.handleBoatClick).1.pendingVoyage =
      some (if gBoarded332.boat.location = Location.origin then Location.destination
            else Location.origin) := by
  have h := claim3_launch gBoarded332 (by decide) (by decide)
  have he := h.2.1 (by decide)
  exact ⟨h.1, he.1, he.2.1, he.2.2.2.1, he.2.2.2.2⟩

theorem getAvatarById_setMountedById (g : Game) (id : Nat) (m : MountStatus) :
    (g.setMountedById id m).getAvatarById id
      = (g.getAvatarById id).map (fun a => { a with mounted := m }) := by
  unfold Game.setMountedById Game.getAvatarById
  simp only
  generalize g.avatars = l
  induction l with
  | nil => rfl
  | cons a t ih =>
    by_cases h : a.id = id
    · simp [List.find?_cons, h]
    · simp [List.find?_cons, h, ih]

theorem getAvatarById_after_setters (g : Game) (loc : Location) (dk : Dock) (b : Boat) (id : Nat) :
    ((g.setDockAt loc dk).setBoat b).getAvatarById id = g.getAvatarById id := by
  cases loc <;> rfl

/-- C6: on an ongoing game, clicking an avatar that sits on the dock at the
boat's current location while the boat is not full moves it from that dock
onto the boat and sets its mount state to on-boat; if the avatar's dock is
not the boat's (boat on the opposite shore) or the boat is at capacity, the
call leaves the game state unchanged, returning only a rejection signal. -/
theorem claim6_board (g : Game) (id : Nat) (a : Avatar) (d : Dock)
    (hs : g.status = GameStatus.ongoing)
    (ha : g.getAvatarById id = some a)
    (hm : a.mounted = MountStatus.onDock)
    (hd : g.getDockByLocation g.boat.location = some d) :
    (d.mount.hasPassenger id = true → g.boat.mount.isFull = false →
      ((g.handleAvatarClick id).2 = ClickResult.boarded ∧
       ((g.handleAvatarClick id).1).boat.mount.passengers = g.boat.mount.passengers ++ [id] ∧
       ((g.handleAvatarClick id).1).getDockByLocation g.boat.location
         = some { d with mount := d.mount.removePassenger id } ∧
       ((g.handleAvatarClick id).1).getAvatarById id
         = some { a with mounted := MountStatus.onBoat })) ∧
    (d.mount.hasPassenger id = false → g.handleAvatarClick id = (g, ClickResult.msgOtherSide)) ∧
    (d.mount.hasPassenger id = true → g.boat.mount.isFull = true →
      g.handleAvatarClick id = (g, ClickResult.msgFullCapacity)) := by
  unfold Game.handleAvatarClick
  rw [if_neg (by simp [hs])]
  cases hloc : g.boat.location with
  | river =>
    rw [hloc] at hd
    simp [Game.getDockByLocation] at hd
  | origin =>
    rw [hloc] at hd
    have hdo : d = g.dockOrigin := by
      simpa [Game.getDockByLocation] using hd.symm
    subst hdo
    simp only [ha, hm, Game.getDockByLocation]
    refine ⟨?_, ?_, ?_⟩
    · intro hp hf
      rw [if_neg (by simp [hp]), if_neg (by simp [hf])]
      refine ⟨rfl, ?_, ?_, ?_⟩
      · simp only [Game.setDockAt, Game.setBoat, Game.setMountedById]
        rw [MountObj.addPassenger_of_not_full _ _ ((MountObj.isFull_false_iff _).1 hf)]
      · simp [Game.setDockAt, Game.setBoat, Game.setMountedById, Game.getDockByLocation]
      · rw [getAvatarById_setMountedById, getAvatarById_after_setters, ha]
        rfl
    · intro hp
      rw [if_pos hp]
    · intro hp hf
      rw [if_neg (by simp [hp]), if_pos hf]
  | destination =>
    rw [hloc] at hd
    have hdo : d = g.dockDestination := by
      simpa [Game.getDockByLocation] using hd.symm
    subst hdo
    simp only [ha, hm, Game.getDockByLocation]
    refine ⟨?_, ?_, ?_⟩
    · intro hp hf
      rw [if_neg (by simp [hp]), if_neg (by simp [hf])]
      refine ⟨rfl, ?_, ?_, ?_⟩
      · simp only [Game.setDockAt, Game.setBoat, Game.setMountedById]
        rw [MountObj.addPassenger_of_not_full _ _ ((MountObj.isFull_false_iff _).1 hf)]
      · simp [Game.setDockAt, Game.setBoat, Game.setMountedById, Game.getDockByLocation]
      · rw [getAvatarById_setMountedById, getAvatarById_after_setters, ha]
        rfl
    · intro hp
      rw [if_pos hp]
    · intro hp hf
      rw [if_neg (by simp [hp]), if_pos hf]

theorem getAvatarById_after_setters2 (g : Game) (b : Boat) (loc : Location) (dk : Dock) (id : Nat) :
    ((g.setBoat b).setDockAt loc dk).getAvatarById id = g.getAvatarById id := by
  cases loc <;> rfl

/-- Witness for C6: boarding monster 0 from the origin dock of the fresh
standard game succeeds and moves it from the dock onto the boat. -/
theorem claim6_witness :
    ((Game.initGame 3 3 2).handleAvatarClick 0).2 = ClickResult.boarded ∧
    (((Game.initGame 3 3 2).handleAvatarClick 0).1).boat.mount.passengers
      = (Game.initGame 3 3 2).boat.mount.passengers ++ [0] ∧
    (((Game.initGame 3 3 2).handleAvatarClick 0).1).getDockByLocation
        (Game.initGame 3 3 2).boat.location
      = some { mount := MountObj.removePassenger
                 { minCapacity := 0, maxCapacity := 6, passengers := [0, 1, 2, 3, 4, 5] } 0,
               location := Location.origin } ∧
    (((Game.initGame 3 3 2).handleAvatarClick 0).1).getAvatarById 0
      = some { id := 0, kind := AvatarType.monster, location := Location.origin,
               mounted := MountStatus.onBoat } :=
  (claim6_board (Game.initGame 3 3 2) 0
    { id := 0, kind := AvatarType.monster, location := Location.origin,
      mounted := MountStatus.onDock }
    { mount := { minCapacity := 0, maxCapacity := 6, passengers := [0, 1, 2, 3, 4, 5] },
      location := Location.origin }
    (by decide) (by decide) rfl (by decide)).1 (by decide) (by decide)

/-- C7 counterexample: a reachable won game whose boat still carries
avatar 0; although the avatar is aboard, the click is rejected by the
terminal-status guard and the avatar is not moved to the dock, so the
unconditional disembark claim fails. -/
theorem claim7_counterexample :
    Game.Reachable 1 1 2 gWon112 ∧
    gWon112.boat.mount.hasPassenger 0 = true ∧
    (gWon112.getAvatarById 0).map Avatar.mounted = some MountStatus.onBoat ∧
    gWon112.handleAvatarClick 0 = (gWon112, ClickResult.noopTerminal) :=
  ⟨gWon112_reachable, by decide, by decide, by decide⟩

/-- C7 as amended: on an ongoing game with the boat docked at a shore,
clicking an avatar that is aboard the boat moves it from the boat to the
dock at the boat's current location and sets its mount state to on-dock;
when the clicked avatar is marked aboard but absent from the boat, the call
is a no-op. -/
theorem claim7_disembark (g : Game) (id : Nat) (a : Avatar) (d : Dock)
    (hs : g.status = GameStatus.ongoing)
    (ha : g.getAvatarById id = some a)
    (hm : a.mounted = MountStatus.onBoat)
    (hd : g.getDockByLocation g.boat.location = some d) :
    (g.boat.mount.hasPassenger id = true →
      ((g.handleAvatarClick id).2 = ClickResult.disembarked ∧
       ((g.handleAvatarClick id).1).boat.mount.passengers = g.boat.mount.passengers.erase id ∧
       ((g.handleAvatarClick id).1).getDockByLocation g.boat.location
         = some { d with mount := d.mount.addPassenger id } ∧
       ((g.handleAvatarClick id).1).getAvatarById id
         = some { a with mounted := MountStatus.onDock })) ∧
    (g.boat.mount.hasPassenger id = false → g.handleAvatarClick id = (g, ClickResult.noopNotAboard)) := by
  unfold Game.handleAvatarClick
  rw [if_neg (by simp [hs])]
  cases hloc : g.boat.location with
  | river =>
    rw [hloc] at hd
    simp [Game.getDockByLocation] at hd
  | origin =>
    rw [hloc] at hd
    have hdo : d = g.dockOrigin := by
      simpa [Game.getDockByLocation] using hd.symm
    subst hdo
    simp only [ha, hm, setBoat_getDockByLocation, Game.getDockByLocation]
    refine ⟨?_, ?_⟩
    · intro hp
      rw [if_neg (by simp [hp])]
      refine ⟨rfl, rfl, ?_, ?_⟩
      · simp [Game.setDockAt, Game.setBoat, Game.setMountedById, Game.getDockByLocation]
      · rw [getAvatarById_setMountedById, getAvatarById_after_setters2, ha]
        rfl
    · intro hp
      rw [if_pos hp]
  | destination =>
    rw [hloc] at hd
    have hdo : d = g.dockDestination := by
      simpa [Game.getDockByLocation] using hd.symm
    subst hdo
    simp only [ha, hm, setBoat_getDockByLocation, Game.getDockByLocation]
    refine ⟨?_, ?_⟩
    · intro hp
      rw [if_neg (by simp [hp])]
      refine ⟨rfl, rfl, ?_, ?_⟩
      · simp [Game.setDockAt, Game.setBoat, Game.setMountedById, Game.getDockByLocation]
      · rw [getAvatarById_setMountedById, getAvatarById_after_setters2, ha]
        rfl
    · intro hp
      rw [if_pos hp]

/-- Witness for C7's amended claim: disembarking monster 0 after it boarded
in the fresh standard game moves it back onto the origin dock. -/
theorem claim7_witness :
    (gBoarded332.handleAvatarClick 0).2 = ClickResult.disembarked ∧
    ((gBoarded332.handleAvatarClick 0).1).boat.mount.passengers
      = gBoarded332.boat.mount.passengers.erase 0 ∧
    ((gBoarded332.handleAvatarClick 0).1).getDockByLocation gBoarded332.boat.location
      = some { mount := MountObj.addPassenger
                 { minCapacity := 0, maxCapacity := 6, passengers := [1, 2, 3, 4, 5] } 0,
               location := Location.origin } ∧
    ((gBoarded332.handleAvatarClick 0).1).getAvatarById 0
      = some { id := 0, kind := AvatarType.monster, location := Location.origin,
               mounted := MountStatus.onDock } :=
  (claim7_disembark gBoarded332 0
    { id := 0, kind := AvatarType.monster, location := Location.origin,
      mounted := MountStatus.onBoat }
    { mount := { minCapacity := 0, maxCapacity := 6, passengers := [1, 2, 3, 4, 5] },
      location := Location.origin }
    (by decide) (by decide) rfl (by decide)).1 (by decide)
